import Mathlib

/-!
Verification of the TourismCam web application's mock backend and client state
layer: shallow embedding of the Next.js auth API routes, the in-memory mock
database (`src/lib/database/schema.ts`), the demo in-memory post store, and the
Zustand posts-store comment bookkeeping (`src/lib/api-client.ts`), together
with theorems checking the spec's testable properties against them.

Strings are modelled as Lean `String` (a list of characters); JavaScript
numbers used as counters are modelled as `Int` (counter arithmetic in the
source can go below zero); `Date` values are modelled as natural-number
timestamps supplied as explicit parameters wherever the source calls
`Date.now()` / `new Date()`.
-/

/-! ## Generic list helpers shared by the embeddings -/

/-- Mutating `array.find(p)` and then updating the found element in place is
modelled by rebuilding the list with the first `p`-element transformed. -/
def updateFirst (p : α → Bool) (f : α → α) : List α → List α
  | [] => []
  | x :: xs => if p x then f x :: xs else x :: updateFirst p f xs

/-- `Promise.all(list.map(f))` over fallible enrichment steps: succeeds with
the list of results exactly when every step succeeds. -/
def mapMO (f : α → Option β) : List α → Option (List β)
  | [] => some []
  | a :: as =>
    match f a, mapMO f as with
    | some b, some bs => some (b :: bs)
    | _, _ => none

theorem updateFirst_updateFirst (p : α → Bool) (f g : α → α)
    (hp : ∀ a, p (g a) = p a) :
    ∀ l : List α, updateFirst p f (updateFirst p g l) = updateFirst p (fun a => f (g a)) l := by
  intro l
  induction l with
  | nil => rfl
  | cons x xs ih =>
    by_cases hx : p x = true
    · simp [updateFirst, hx, hp x]
    · simp only [Bool.not_eq_true] at hx
      simp [updateFirst, hx, ih]

theorem updateFirst_id (p : α → Bool) (f : α → α) (hf : ∀ a, f a = a) :
    ∀ l : List α, updateFirst p f l = l := by
  intro l
  induction l with
  | nil => rfl
  | cons x xs ih =>
    by_cases hx : p x = true
    · simp [updateFirst, hx, hf]
    · simp only [Bool.not_eq_true] at hx
      simp [updateFirst, hx, ih]

theorem find?_updateFirst (p : α → Bool) (f : α → α) (hp : ∀ a, p (f a) = p a) :
    ∀ l : List α, List.find? p (updateFirst p f l) = (List.find? p l).map f := by
  intro l
  induction l with
  | nil => rfl
  | cons x xs ih =>
    by_cases hx : p x = true
    · simp [updateFirst, hx, List.find?, hp x]
    · simp only [Bool.not_eq_true] at hx
      simp [updateFirst, hx, List.find?, ih]

theorem mapMO_length (f : α → Option β) :
    ∀ {l : List α} {r : List β}, mapMO f l = some r → r.length = l.length := by
  intro l
  induction l with
  | nil => intro r h; simp [mapMO] at h; simp [← h]
  | cons a as ih =>
    intro r h
    simp only [mapMO] at h
    cases hfa : f a with
    | none => rw [hfa] at h; simp at h
    | some b =>
      rw [hfa] at h
      cases hrest : mapMO f as with
      | none => rw [hrest] at h; simp at h
      | some bs =>
        rw [hrest] at h
        simp only [Option.some.injEq] at h
        subst h
        simp [ih hrest]

theorem mapMO_mem (f : α → Option β) :
    ∀ {l : List α} {r : List β}, mapMO f l = some r →
      ∀ x ∈ r, ∃ a ∈ l, f a = some x := by
  intro l
  induction l with
  | nil =>
    intro r h x hx
    simp [mapMO] at h
    subst h
    simp at hx
  | cons a as ih =>
    intro r h x hx
    simp only [mapMO] at h
    cases hfa : f a with
    | none => rw [hfa] at h; simp at h
    | some b =>
      rw [hfa] at h
      cases hrest : mapMO f as with
      | none => rw [hrest] at h; simp at h
      | some bs =>
        rw [hrest] at h
        simp only [Option.some.injEq] at h
        subst h
        rcases List.mem_cons.mp hx with hxb | hxbs
        · exact ⟨a, List.mem_cons_self a as, by rw [hfa, hxb]⟩
        · rcases ih hrest x hxbs with ⟨a2, ha2, hfa2⟩
          exact ⟨a2, List.mem_cons_of_mem a ha2, hfa2⟩

theorem mapMO_map_back (f : α → Option β) (g : β → α)
    (hg : ∀ a b, f a = some b → g b = a) :
    ∀ {l : List α} {r : List β}, mapMO f l = some r → r.map g = l := by
  intro l
  induction l with
  | nil => intro r h; simp [mapMO] at h; simp [← h]
  | cons a as ih =>
    intro r h
    simp only [mapMO] at h
    cases hfa : f a with
    | none => rw [hfa] at h; simp at h
    | some b =>
      rw [hfa] at h
      cases hrest : mapMO f as with
      | none => rw [hrest] at h; simp at h
      | some bs =>
        rw [hrest] at h
        simp only [Option.some.injEq] at h
        subst h
        simp [hg a b hfa, ih hrest]

/-! ## JavaScript string primitives -/

/-- The characters treated as whitespace by the JavaScript regex classes
`\s` / `\S` and by `String.prototype.trim` (restricted to the code points that
occur in this code base; the full JS set also has exotic Unicode spaces). -/
def jsWhitespace (c : Char) : Bool :=
  c == ' ' || c == '\t' || c == '\n' || c == '\r' ||
  c == '\x0b' || c == '\x0c' || c == ' '

/-- A `\S` character. -/
def nonspace (c : Char) : Bool := !jsWhitespace c

/-- JavaScript truthiness of a `string | undefined | null` value: `undefined`,
`null` and the empty string are falsy. -/
def jsFalsy : Option String → Bool
  | none => true
  | some s => s.length == 0

/-- `String.prototype.trim`. -/
def jsTrim (s : String) : String :=
  ⟨((s.data.dropWhile jsWhitespace).reverse.dropWhile jsWhitespace).reverse⟩

/-- Is `pre` a leading segment of `l`? (`String.prototype.startsWith`,
argument first). -/
def leadsWith : List Char → List Char → Bool
  | [], _ => true
  | _ :: _, [] => false
  | a :: as, b :: bs => a == b && leadsWith as bs

/-- `s.startsWith (pre)`. -/
def strStartsWith (s pre : String) : Bool := leadsWith pre.data s.data

/-- `s.substring (n)`. -/
def strDropChars (s : String) (n : Nat) : String := ⟨s.data.drop n⟩

/-- `hay.includes(needle)`: contiguous-substring containment. -/
def containsList (needle : List Char) : List Char → Bool
  | [] => leadsWith needle []
  | c :: t => leadsWith needle (c :: t) || containsList needle t

/-- `hay.toLowerCase().includes(q.toLowerCase())` — the case-insensitive
substring test used by the mock search (ASCII lowering, as all the seeded
data is ASCII in the relevant fields). -/
def containsCI (hay q : String) : Bool :=
  containsList (q.data.map Char.toLower) (hay.data.map Char.toLower)

/-- One candidate placement of the regex `\S+@\S+\.\S+` inside `cs`:
an `@` at index `i` and a `.` at index `j` with a non-space character just
before the `@`, at least one and only non-space characters strictly between
them, and a non-space character just after the `.`. -/
def emailMatchAt (cs : List Char) (i j : Nat) : Bool :=
  decide (1 ≤ i) && decide (i + 2 ≤ j) && decide (j + 2 ≤ cs.length) &&
  (cs.getD i ' ' == '@') && (cs.getD j ' ' == '.') &&
  nonspace (cs.getD (i - 1) ' ') && nonspace (cs.getD (j + 1) ' ') &&
  ((List.range' (i + 1) (j - i - 1)).all fun k => nonspace (cs.getD k ' '))

/-- `/\S+@\S+\.\S+/.test(s)` — an (unanchored) search for the pattern, which
succeeds exactly when some placement `emailMatchAt` succeeds. -/
def emailTest (s : String) : Bool :=
  (List.range s.data.length).any fun i =>
    (List.range s.data.length).any fun j => emailMatchAt s.data i j

/-- A character of the class `[\d\s\-\(\)]` of the phone regex. -/
def phoneChar (c : Char) : Bool :=
  c.isDigit || jsWhitespace c || c == '-' || c == '(' || c == ')'

/-- `/^\+?[\d\s\-\(\)]+$/.test(s)` — anchored: an optional leading plus sign
followed by one or more phone-class characters. -/
def phoneTest (s : String) : Bool :=
  match s.data with
  | [] => false
  | c :: rest =>
    if c == '+' then rest.length != 0 && rest.all phoneChar
    else (c :: rest).all phoneChar

theorem emailTest_ne_nil {s : String} (h : emailTest s = true) : s.data ≠ [] := by
  intro hnil
  rw [emailTest, hnil] at h
  simp at h

theorem emailTest_not_falsy {s : String} (h : emailTest s = true) :
    jsFalsy (some s) = false := by
  have hne := emailTest_ne_nil h
  have : s.length ≠ 0 := by
    intro hz
    exact hne (List.length_eq_zero.mp hz)
  simp [jsFalsy, this]

theorem length_pos_not_falsy {s : String} (h : 1 ≤ s.length) :
    jsFalsy (some s) = false := by
  have : s.length ≠ 0 := by omega
  simp [jsFalsy, this]

theorem jsTrim_length_not_falsy {s : String} (h : 1 ≤ (jsTrim s).length) :
    jsFalsy (some s) = false := by
  have : s.data ≠ [] := by
    intro hnil
    rw [jsTrim, hnil] at h
    simp [List.dropWhile] at h
  have : s.length ≠ 0 := fun hz => this (List.length_eq_zero.mp hz)
  simp [jsFalsy, this]

/-! ## Auth API routes (`src/app/api/auth/...`)

Each handler is embedded as a pure function from the request ingredients it
actually reads (JSON body fields, the `Authorization` header, the current
clock value) to the JSON response it builds: an HTTP status plus the response
body fields. -/

namespace AuthApi

/-- The user object in the login and `/me` responses. -/
structure SessionUser where
  id : String
  email : String
  name : String
  phone : String
  role : String
  deriving DecidableEq, Repr

/-- Response of `POST /api/auth/login`. -/
structure LoginResponse where
  status : Nat
  message : Option String
  error : Option String
  user : Option SessionUser
  token : Option String
  sessionId : Option String
  deriving DecidableEq, Repr

/-- `POST /api/auth/login` (mock), `now` standing for `Date.now()`. -/
def loginPOST (email password : Option String) (now : Nat) : LoginResponse :=
  if jsFalsy email || jsFalsy password then
    { status := 400, message := none, error := some "Email and password are required",
      user := none, token := none, sessionId := none }
  else
    let e := email.getD ""
    let pw := password.getD ""
    if !emailTest e then
      { status := 400, message := none, error := some "Please enter a valid email address",
        user := none, token := none, sessionId := none }
    else if e == "demo@example.com" && pw == "password123" then
      { status := 200, message := some "Login successful", error := none,
        user := some { id := "user_123", email := e, name := "Demo User",
                       phone := "+1234567890", role := "user" },
        token := some ("mock_jwt_token_" ++ toString now),
        sessionId := some ("session_" ++ toString now) }
    else
      { status := 401, message := none, error := some "Invalid email or password",
        user := none, token := none, sessionId := none }

/-- The user object in the register response (`id`, `email`, `name` only —
the response never carries a password field). -/
structure RegisteredUser where
  id : String
  email : String
  name : String
  deriving DecidableEq, Repr

/-- Response of `POST /api/auth/register`. -/
structure RegisterResponse where
  status : Nat
  message : Option String
  error : Option String
  user : Option RegisteredUser
  deriving DecidableEq, Repr

/-- The JSON body of a registration request. -/
structure RegisterBody where
  email : Option String
  password : Option String
  name : Option String
  phone : Option String
  deriving DecidableEq, Repr

/-- `POST /api/auth/register` (mock), `now` standing for `Date.now()`. -/
def registerPOST (b : RegisterBody) (now : Nat) : RegisterResponse :=
  if jsFalsy b.email || jsFalsy b.password || jsFalsy b.name then
    { status := 400, message := none,
      error := some "Email, password, and name are required", user := none }
  else
    let email := b.email.getD ""
    let password := b.password.getD ""
    let name := b.name.getD ""
    if !emailTest email then
      { status := 400, message := none,
        error := some "Please enter a valid email address", user := none }
    else if password.length < 6 then
      { status := 400, message := none,
        error := some "Password must be at least 6 characters long", user := none }
    else if (jsTrim name).length < 2 then
      { status := 400, message := none,
        error := some "Name must be at least 2 characters long", user := none }
    else if !jsFalsy b.phone && !phoneTest (b.phone.getD "") then
      { status := 400, message := none,
        error := some "Please enter a valid phone number", user := none }
    else if email == "existing@example.com" then
      { status := 409, message := none,
        error := some "An account with this email already exists", user := none }
    else
      { status := 201,
        message := some "User registered successfully. Please verify your email.",
        error := none,
        user := some { id := "user_" ++ toString now, email := email, name := jsTrim name } }

/-- `extractToken`: strip `Bearer ` from the `Authorization` header, `none`
when the header is missing, falsy, or does not start with `Bearer `. -/
def extractToken (authHeader : Option String) : Option String :=
  if jsFalsy authHeader then none
  else
    let h := authHeader.getD ""
    if strStartsWith h "Bearer " then some (strDropChars h 7) else none

/-- Response of `GET /api/auth/me`. -/
structure MeResponse where
  status : Nat
  error : Option String
  user : Option SessionUser
  deriving DecidableEq, Repr

/-- `GET /api/auth/me` (mock). -/
def meGET (authHeader : Option String) : MeResponse :=
  let token := extractToken authHeader
  if jsFalsy token then
    { status := 401, error := some "Authorization token is required", user := none }
  else if strStartsWith (token.getD "") "mock_jwt_token_" then
    { status := 200, error := none,
      user := some { id := "user_123", email := "demo@example.com", name := "Demo User",
                     phone := "+1234567890", role := "user" } }
  else
    { status := 401, error := some "Invalid or expired token", user := none }

end AuthApi

/-! ## The mock database (`src/lib/database/schema.ts`)

The module-level mutable arrays `users`, `posts`, `comments`, `likes`,
`savedPosts` and the `currentUserId` variable form the store state; each
query function is embedded as a function of that state. The enrichment steps
dereference joined user records with a non-null assertion (`user!.id`), which
throws at runtime when the join misses; they are therefore `Option`-valued
here, `none` marking that runtime failure. -/

namespace MockDb

structure User where
  id : String
  username : String
  email : String
  password_hash : String
  full_name : Option String
  bio : Option String
  avatar_url : Option String
  created_at : Nat
  updated_at : Nat
  is_verified : Bool
  total_likes_received : Int
  post_count : Int
  deriving DecidableEq, Repr

structure Post where
  id : String
  user_id : String
  image_url : String
  caption : String
  location : String
  is_panoramic : Bool
  likes_count : Int
  comments_count : Int
  views_count : Int
  created_at : Nat
  updated_at : Nat
  is_deleted : Bool
  deriving DecidableEq, Repr

structure Comment where
  id : String
  post_id : String
  user_id : String
  text : String
  created_at : Nat
  updated_at : Nat
  is_deleted : Bool
  deriving DecidableEq, Repr

structure Like where
  id : String
  post_id : String
  user_id : String
  created_at : Nat
  deriving DecidableEq, Repr

structure SavedPost where
  id : String
  post_id : String
  user_id : String
  created_at : Nat
  deriving DecidableEq, Repr

/-- `Pick<User, "id" | "username" | "avatar_url" | "is_verified">`. -/
structure UserInfo where
  id : String
  username : String
  avatar_url : Option String
  is_verified : Bool
  deriving DecidableEq, Repr

/-- `Pick<User, "id" | "username" | "avatar_url">`. -/
structure CommentUserInfo where
  id : String
  username : String
  avatar_url : Option String
  deriving DecidableEq, Repr

/-- `Comment & { user: Pick<User, ...> }`. -/
structure CommentWithUser where
  comment : Comment
  user : CommentUserInfo
  deriving DecidableEq, Repr

/-- `PostWithDetails extends Post` with the enrichment fields; the inherited
`Post` fields are kept as the nested `post` component. -/
structure PostWithDetails where
  post : Post
  user : UserInfo
  is_liked_by_current_user : Bool
  is_saved_by_current_user : Bool
  recent_comments : List CommentWithUser
  deriving DecidableEq, Repr

/-- The module-level mutable state of `schema.ts`. -/
structure Store where
  users : List User
  posts : List Post
  comments : List Comment
  likes : List Like
  savedPosts : List SavedPost
  currentUserId : String
  deriving DecidableEq, Repr

/-- `getUserById`. -/
def getUserById (s : Store) (id : String) : Option User :=
  s.users.find? fun u => u.id == id

def userInfo (u : User) : UserInfo :=
  { id := u.id, username := u.username, avatar_url := u.avatar_url,
    is_verified := u.is_verified }

def commentUserInfo (u : User) : CommentUserInfo :=
  { id := u.id, username := u.username, avatar_url := u.avatar_url }

/-- Join a comment with its author (`commentUser!.…`). -/
def enrichComment (s : Store) (c : Comment) : Option CommentWithUser :=
  (getUserById s c.user_id).map fun u => { comment := c, user := commentUserInfo u }

def likedByCurrentUser (s : Store) (postId : String) : Bool :=
  s.likes.any fun l => l.post_id == postId && l.user_id == s.currentUserId

def savedByCurrentUser (s : Store) (postId : String) : Bool :=
  s.savedPosts.any fun v => v.post_id == postId && v.user_id == s.currentUserId

/-- The enrichment step of `getPosts` for one post: author join, current-user
flags, and the first three non-deleted comments of the post with their
authors joined. -/
def enrichFeedPost (s : Store) (post : Post) : Option PostWithDetails :=
  match getUserById s post.user_id with
  | none => none
  | some u =>
    (mapMO (enrichComment s)
        ((s.comments.filter fun c => c.post_id == post.id && !c.is_deleted).take 3)).map
      fun rc =>
        { post := post, user := userInfo u,
          is_liked_by_current_user := likedByCurrentUser s post.id,
          is_saved_by_current_user := savedByCurrentUser s post.id,
          recent_comments := rc }

/-- Descending creation time, the comparator `(a, b) => b.created_at.getTime()
- a.created_at.getTime()` of `getPosts`. -/
def moreRecent (a b : Post) : Prop := b.created_at ≤ a.created_at

instance : DecidableRel moreRecent := fun a b => Nat.decLe b.created_at a.created_at

instance : IsTotal Post moreRecent :=
  ⟨fun a b => by unfold moreRecent; exact Nat.le_total b.created_at a.created_at⟩

instance : IsTrans Post moreRecent :=
  ⟨fun _ _ _ h1 h2 => by unfold moreRecent at *; exact Nat.le_trans h2 h1⟩

/-- The stable sort `posts.sort(comparator)` (JavaScript array sort is
stable), restricted to the non-deleted posts as in `getPosts`. -/
def sortPostsDesc (l : List Post) : List Post := l.insertionSort moreRecent

/-- `getPosts(limit, offset)`. -/
def getPosts (s : Store) (limit offset : Nat) : Option (List PostWithDetails) :=
  mapMO (enrichFeedPost s)
    (((sortPostsDesc (s.posts.filter fun p => !p.is_deleted)).drop offset).take limit)

/-- `getPostById(id)`: like the feed enrichment but joining all non-deleted
comments of the post, not just three. -/
def getPostById (s : Store) (id : String) : Option PostWithDetails :=
  match s.posts.find? fun p => p.id == id && !p.is_deleted with
  | none => none
  | some post =>
    match getUserById s post.user_id with
    | none => none
    | some u =>
      (mapMO (enrichComment s)
          (s.comments.filter fun c => c.post_id == post.id && !c.is_deleted)).map
        fun cw =>
          { post := post, user := userInfo u,
            is_liked_by_current_user := likedByCurrentUser s post.id,
            is_saved_by_current_user := savedByCurrentUser s post.id,
            recent_comments := cw }

/-- The `postData` argument of `createPost` (`Omit<Post, generated fields>`). -/
structure PostInput where
  user_id : String
  image_url : String
  caption : String
  location : String
  is_panoramic : Bool
  deriving DecidableEq, Repr

/-- `createPost(postData)`: append a post with fresh id `(posts.length + 1)`,
zero counters and the current timestamp, and bump the author's `post_count`. -/
def createPost (s : Store) (d : PostInput) (now : Nat) : Store × Post :=
  let newPost : Post :=
    { id := toString (s.posts.length + 1), user_id := d.user_id,
      image_url := d.image_url, caption := d.caption, location := d.location,
      is_panoramic := d.is_panoramic, likes_count := 0, comments_count := 0,
      views_count := 0, created_at := now, updated_at := now, is_deleted := false }
  ({ s with posts := s.posts ++ [newPost],
            users := updateFirst (fun u => u.id == d.user_id)
                (fun u => { u with post_count := u.post_count + 1 }) s.users },
   newPost)

/-- The `commentData` argument of `createComment`. -/
structure CommentInput where
  post_id : String
  user_id : String
  text : String
  deriving DecidableEq, Repr

/-- `createComment(commentData)`: append the comment and bump the post's
`comments_count`. -/
def createComment (s : Store) (d : CommentInput) (now : Nat) : Store × Comment :=
  let newComment : Comment :=
    { id := toString (s.comments.length + 1), post_id := d.post_id,
      user_id := d.user_id, text := d.text, created_at := now, updated_at := now,
      is_deleted := false }
  ({ s with comments := s.comments ++ [newComment],
            posts := updateFirst (fun p => p.id == d.post_id)
                (fun p => { p with comments_count := p.comments_count + 1 }) s.posts },
   newComment)

/-- `toggleLike(postId, userId)`: remove the found like record (filtering by
its id) and decrement the post's counter, or append a fresh like record and
increment it; returns the new liked state. -/
def toggleLike (s : Store) (postId userId : String) (now : Nat) : Store × Bool :=
  match s.likes.find? fun l => l.post_id == postId && l.user_id == userId with
  | some existingLike =>
    ({ s with likes := s.likes.filter fun l => !(l.id == existingLike.id),
              posts := updateFirst (fun p => p.id == postId)
                  (fun p => { p with likes_count := p.likes_count - 1 }) s.posts },
     false)
  | none =>
    let newLike : Like :=
      { id := toString (s.likes.length + 1), post_id := postId, user_id := userId,
        created_at := now }
    ({ s with likes := s.likes ++ [newLike],
              posts := updateFirst (fun p => p.id == postId)
                  (fun p => { p with likes_count := p.likes_count + 1 }) s.posts },
     true)

/-- `toggleSavedPost(postId, userId)`. -/
def toggleSavedPost (s : Store) (postId userId : String) (now : Nat) : Store × Bool :=
  match s.savedPosts.find? fun v => v.post_id == postId && v.user_id == userId with
  | some existingSave =>
    ({ s with savedPosts := s.savedPosts.filter fun v => !(v.id == existingSave.id) },
     false)
  | none =>
    let newSave : SavedPost :=
      { id := toString (s.savedPosts.length + 1), post_id := postId, user_id := userId,
        created_at := now }
    ({ s with savedPosts := s.savedPosts ++ [newSave] }, true)

/-- The search enrichment: author join and flags, `recent_comments: []`. -/
def enrichSearchPost (s : Store) (post : Post) : Option PostWithDetails :=
  (getUserById s post.user_id).map fun u =>
    { post := post, user := userInfo u,
      is_liked_by_current_user := likedByCurrentUser s post.id,
      is_saved_by_current_user := savedByCurrentUser s post.id,
      recent_comments := [] }

/-- `searchPosts(query)`: the non-deleted posts whose caption or location
contains the query case-insensitively, enriched. -/
def searchPosts (s : Store) (query : String) : Option (List PostWithDetails) :=
  mapMO (enrichSearchPost s)
    (s.posts.filter fun post =>
      !post.is_deleted && (containsCI post.caption query || containsCI post.location query))

/-- The seeded module state of `schema.ts` (`now` standing for the
`new Date()` timestamps taken at module load; the fixed calendar dates are
their epoch-millisecond values). -/
def initialStore (now : Nat) : Store :=
  { users :=
      [ { id := "1", username := "current_user", email := "user@example.com",
          password_hash := "hashed_password", full_name := some "John Doe",
          bio := some "🌍 Travel enthusiast | 📸 Tourism photographer\nExploring the beautiful landscapes of Cameroon 🇨🇲",
          avatar_url := some "/placeholder.svg?height=40&width=40",
          created_at := 1704067200000, updated_at := now, is_verified := false,
          total_likes_received := 0, post_count := 0 },
        { id := "2", username := "traveler_jane", email := "jane@example.com",
          password_hash := "hashed_password", full_name := some "Jane Traveler",
          bio := some "🌍 Explorer | 📸 Photography enthusiast",
          avatar_url := some "/placeholder.svg?height=40&width=40",
          created_at := 1704067200000, updated_at := now, is_verified := true,
          total_likes_received := 234, post_count := 1 } ],
    posts :=
      [ { id := "1", user_id := "2",
          image_url := "/placeholder.svg?height=400&width=800",
          caption := "Amazing sunset at Mount Cameroon! 🌅 #Cameroon #Tourism #Nature",
          location := "Mount Cameroon, Cameroon", is_panoramic := true,
          likes_count := 234, comments_count := 2, views_count := 1250,
          created_at := 1705276800000, updated_at := 1705276800000,
          is_deleted := false } ],
    comments :=
      [ { id := "1", post_id := "1", user_id := "1",
          text := "Absolutely stunning view! 😍",
          created_at := 1705312800000, updated_at := 1705312800000,
          is_deleted := false } ],
    likes := [],
    savedPosts := [],
    currentUserId := "1" }

end MockDb

/-! ## The demo in-memory post store (`src/unnamed` static-demo variant)

The file holding `addComment(postId, text)`: posts carry their comments
inline, the current user is a module-level record. -/

namespace DemoStore

structure DUser where
  username : String
  avatar : String
  fullName : Option String
  bio : Option String
  deriving DecidableEq, Repr

structure DComment where
  id : Int
  username : String
  avatar : String
  text : String
  timeAgo : String
  deriving DecidableEq, Repr

structure DPost where
  id : Int
  user : DUser
  image : String
  caption : String
  likes : Int
  comments : List DComment
  timeAgo : String
  location : String
  isPanoramic : Bool
  deriving DecidableEq, Repr

/-- The module state: the posts array, the saved-post id list and the current
user record. -/
structure DStore where
  posts : List DPost
  savedPosts : List Int
  currentUser : DUser
  deriving DecidableEq, Repr

/-- `Math.max(...xs, 0)`. -/
def maxWithZero (xs : List Int) : Int := xs.foldr max 0

/-- `addComment(postId, text)`: find the post, append a comment authored by
the current user with a fresh id; `null` when the post is absent. -/
def addComment (s : DStore) (postId : Int) (text : String) : DStore × Option DComment :=
  match s.posts.find? fun p => p.id == postId with
  | none => (s, none)
  | some post =>
    let newComment : DComment :=
      { id := maxWithZero (post.comments.map (·.id)) + 1,
        username := s.currentUser.username, avatar := s.currentUser.avatar,
        text := text, timeAgo := "now" }
    ({ s with posts := updateFirst (fun p => p.id == postId)
                  (fun p => { p with comments := p.comments ++ [newComment] }) s.posts },
     some newComment)

end DemoStore

/-! ## The Zustand posts store (`src/lib/api-client.ts`, `usePostsStore`)

Only the state fields touched by the `deleteComment` success branch are
modelled: the post lists, the current post and the per-post comment cache
(`Record<string, Comment[]>`, embedded as an association list). The posts'
`location`, `imageMetadata` and `author` payload objects are never read or
written by any store action and contain floating-point coordinate fields, so
they are not carried. -/

namespace PostsStore

/-- The post shape of the store (`Post` of `src/unnamed/part_007`); `$`-
prefixed Appwrite field names lose their `$` here. -/
structure CPost where
  id : String
  createdAt : String
  updatedAt : String
  authorId : String
  caption : String
  imageUrl : String
  imagePublicId : String
  tags : List String
  isPublic : Bool
  status : String
  likesCount : Int
  commentsCount : Int
  viewsCount : Int
  deriving DecidableEq, Repr

structure CComment where
  id : String
  createdAt : String
  updatedAt : String
  postId : String
  authorId : String
  content : String
  isEdited : Bool
  repliesCount : Int
  deriving DecidableEq, Repr

/-- The slice of `PostsState` read and written by `deleteComment`. -/
structure CState where
  posts : List CPost
  currentPost : Option CPost
  comments : List (String × List CComment)
  deriving DecidableEq, Repr

/-- `state.comments[postId] || []`. -/
def commentsOf (m : List (String × List CComment)) (postId : String) : List CComment :=
  ((m.find? fun e => e.1 == postId).map (·.2)).getD []

/-- `{ ...state.comments, [postId]: v }`: replace the key's entry, or add it. -/
def setCommentsKey (m : List (String × List CComment)) (postId : String)
    (v : List CComment) : List (String × List CComment) :=
  if m.any fun e => e.1 == postId then
    m.map fun e => if e.1 == postId then (e.1, v) else e
  else m ++ [(postId, v)]

/-- The state update of the `deleteComment` success branch: drop the comment
from the post's cache and clamp-decrement `commentsCount` on the matching
post in `posts` and on `currentPost`. -/
def deleteCommentSuccess (st : CState) (postId commentId : String) : CState :=
  { st with
    comments := setCommentsKey st.comments postId
        ((commentsOf st.comments postId).filter fun c => !(c.id == commentId)),
    posts := st.posts.map fun post =>
      if post.id == postId then
        { post with commentsCount := max 0 (post.commentsCount - 1) }
      else post,
    currentPost :=
      match st.currentPost with
      | some cp =>
        if cp.id == postId then
          some { cp with commentsCount := max 0 (cp.commentsCount - 1) }
        else some cp
      | none => none }

end PostsStore

/-! ## Observables and operation sequences over the mock database -/

namespace MockDb

/-- Number of `Like` records held for a `(postId, userId)` pair. -/
def likePairCount (likes : List Like) (postId userId : String) : Nat :=
  likes.countP fun l => l.post_id == postId && l.user_id == userId

/-- Number of `SavedPost` records held for a `(postId, userId)` pair. -/
def savePairCount (saves : List SavedPost) (postId userId : String) : Nat :=
  saves.countP fun v => v.post_id == postId && v.user_id == userId

/-- The liked state of a `(postId, userId)` pair: existence of a `Like`
record for it. -/
def hasLike (s : Store) (postId userId : String) : Bool :=
  s.likes.any fun l => l.post_id == postId && l.user_id == userId

/-- At most one `Like` record per `(postId, userId)` pair. -/
def likeUnique (s : Store) : Prop :=
  ∀ postId userId, likePairCount s.likes postId userId ≤ 1

/-- At most one `SavedPost` record per `(postId, userId)` pair. -/
def saveUnique (s : Store) : Prop :=
  ∀ postId userId, savePairCount s.savedPosts postId userId ≤ 1

/-- One store operation of the toggle fragment. -/
inductive Op where
  | like (postId userId : String) (now : Nat)
  | save (postId userId : String) (now : Nat)

/-- Apply one toggle operation to the store. -/
def applyOp (s : Store) : Op → Store
  | .like postId userId now => (toggleLike s postId userId now).1
  | .save postId userId now => (toggleSavedPost s postId userId now).1

/-- Run a sequence of toggle operations from a store. -/
def runOps (s : Store) : List Op → Store
  | [] => s
  | op :: ops => runOps (applyOp s op) ops

end MockDb

/-! ## Small concrete fixtures used by the witness theorems -/

namespace Fixtures

def dbUser : MockDb.User :=
  { id := "1", username := "alice", email := "a@b.c", password_hash := "h",
    full_name := none, bio := none, avatar_url := none, created_at := 0,
    updated_at := 0, is_verified := false, total_likes_received := 0, post_count := 1 }

def dbPost : MockDb.Post :=
  { id := "1", user_id := "1", image_url := "/i.svg", caption := "Hello Cameroon",
    location := "Kribi", is_panoramic := true, likes_count := 0, comments_count := 0,
    views_count := 0, created_at := 5, updated_at := 5, is_deleted := false }

def dbStore : MockDb.Store :=
  { users := [dbUser], posts := [dbPost], comments := [], likes := [],
    savedPosts := [], currentUserId := "1" }

def demoUser : DemoStore.DUser :=
  { username := "current_user", avatar := "/a.svg", fullName := none, bio := none }

def demoPost : DemoStore.DPost :=
  { id := 1, user := demoUser, image := "/i.svg", caption := "cap", likes := 0,
    comments := [], timeAgo := "2h", location := "loc", isPanoramic := true }

def demoStore : DemoStore.DStore :=
  { posts := [demoPost], savedPosts := [], currentUser := demoUser }

/-- The enrichment of `dbPost` produced by the feed and search queries on
`dbStore`. -/
def dbHit : MockDb.PostWithDetails :=
  { post := dbPost, user := MockDb.userInfo dbUser,
    is_liked_by_current_user := false, is_saved_by_current_user := false,
    recent_comments := [] }

def cPost : PostsStore.CPost :=
  { id := "p1", createdAt := "", updatedAt := "", authorId := "u1", caption := "c",
    imageUrl := "", imagePublicId := "", tags := [], isPublic := true,
    status := "published", likesCount := 0, commentsCount := 0, viewsCount := 0 }

def cState : PostsStore.CState :=
  { posts := [cPost], currentPost := some cPost, comments := [] }

end Fixtures

/-! ## Claims about the auth API routes -/

/-- Claim C1, counterexample: the credential pair `a` / `b` is not the demo
pair, yet `POST /api/auth/login` answers 400 (invalid email format), not 401
— the claim's "every other credential pair yields 401" fails on pairs that
do not pass the validation steps. -/
theorem C1_login_counterexample :
    (AuthApi.loginPOST (some "a") (some "b") 0).status = 400
    ∧ ¬((AuthApi.loginPOST (some "a") (some "b") 0).status = 401)
    ∧ ¬("a" = "demo@example.com" ∧ "b" = "password123") := by
  decide

/-- Claim C1 (amended): the demo pair `demo@example.com` / `password123`
yields 200 with a token prefixed `mock_jwt_token_` and a sessionId prefixed
`session_`; every other credential pair that passes input validation (both
fields truthy and the email matching `\S+@\S+\.\S+`) yields 401; pairs
failing validation yield 400 instead. -/
theorem C1_login :
    (∀ now : Nat,
      (AuthApi.loginPOST (some "demo@example.com") (some "password123") now).status = 200
      ∧ (∃ rest, (AuthApi.loginPOST (some "demo@example.com") (some "password123") now).token
            = some ("mock_jwt_token_" ++ rest))
      ∧ (∃ rest, (AuthApi.loginPOST (some "demo@example.com") (some "password123") now).sessionId
            = some ("session_" ++ rest)))
  ∧ (∀ (e pw : String) (now : Nat),
      emailTest e = true → jsFalsy (some pw) = false →
      ¬(e = "demo@example.com" ∧ pw = "password123") →
      (AuthApi.loginPOST (some e) (some pw) now).status = 401) := by
  constructor
  · intro now
    exact ⟨rfl, ⟨toString now, rfl⟩, ⟨toString now, rfl⟩⟩
  · intro e pw now he hpw hne
    have hef : jsFalsy (some e) = false := emailTest_not_falsy he
    have hdemo : (e == "demo@example.com" && pw == "password123") = false := by
      by_cases h : e = "demo@example.com"
      · have hp : pw ≠ "password123" := fun hp => hne ⟨h, hp⟩
        simp [h, hp]
      · simp [h]
    unfold AuthApi.loginPOST
    simp [hef, hpw, he, hdemo]

/-- Claim C1, witness for the amended 401 branch: a concrete non-demo pair
passing validation indeed receives 401. -/
theorem C1_login_witness :
    (AuthApi.loginPOST (some "x@y.z") (some "pw1234") 0).status = 401 :=
  C1_login.2 "x@y.z" "pw1234" 0 (by decide) (by decide) (by decide)

/-- Claim C2, counterexample: the payload with email `existing@example.com`,
password `password123` and name `John` satisfies every condition of the claim
(email matches the regex, password length ≥ 6, trimmed name length ≥ 2), yet
`POST /api/auth/register` answers 409, not 201. -/
theorem C2_register_counterexample :
    emailTest "existing@example.com" = true
    ∧ 6 ≤ ("password123" : String).length
    ∧ 2 ≤ (jsTrim "John").length
    ∧ (AuthApi.registerPOST
        { email := some "existing@example.com", password := some "password123",
          name := some "John", phone := none } 0).status = 409
    ∧ ¬((AuthApi.registerPOST
        { email := some "existing@example.com", password := some "password123",
          name := some "John", phone := none } 0).status = 201) := by
  decide

/-- Claim C2 (amended): for every registration payload whose email matches
`\S+@\S+\.\S+` and is not the reserved `existing@example.com`, whose password
has length at least 6, whose trimmed name has length at least 2, and whose
phone is absent, empty, or matches `^\+?[\d\s\-\(\)]+$`, the register route
returns 201 with a user object carrying exactly id, email and trimmed name
(the response user type has no password field). -/
theorem C2_register (e pw nm : String) (ph : Option String) (now : Nat)
    (he : emailTest e = true)
    (hex : e ≠ "existing@example.com")
    (hpw : 6 ≤ pw.length)
    (hnm : 2 ≤ (jsTrim nm).length)
    (hph : jsFalsy ph = true ∨ ∃ p, ph = some p ∧ phoneTest p = true) :
    (AuthApi.registerPOST { email := some e, password := some pw, name := some nm, phone := ph } now).status = 201
    ∧ (AuthApi.registerPOST { email := some e, password := some pw, name := some nm, phone := ph } now).user
        = some { id := "user_" ++ toString now, email := e, name := jsTrim nm } := by
  have hef : jsFalsy (some e) = false := emailTest_not_falsy he
  have hpwf : jsFalsy (some pw) = false := length_pos_not_falsy (by omega)
  have hnmf : jsFalsy (some nm) = false := jsTrim_length_not_falsy (by omega)
  have hpwlt : ¬(pw.length < 6) := by omega
  have hnmlt : ¬((jsTrim nm).length < 2) := by omega
  have hphc : (!jsFalsy ph && !phoneTest (ph.getD "")) = false := by
    rcases hph with h | ⟨p, hp, hpt⟩
    · simp [h]
    · simp [hp, hpt]
  have hexb : (e == "existing@example.com") = false := by simp [hex]
  unfold AuthApi.registerPOST
  simp [hef, hpwf, hnmf, he, hpwlt, hnmlt, hphc, hexb]

/-- Claim C2, witness: a concrete valid payload receives 201 with the
expected user object. -/
theorem C2_register_witness :
    (AuthApi.registerPOST
      { email := some "new@user.org", password := some "secret7", name := some " Jo ",
        phone := some "+1 (23) 4-5" } 9).status = 201
    ∧ (AuthApi.registerPOST
      { email := some "new@user.org", password := some "secret7", name := some " Jo ",
        phone := some "+1 (23) 4-5" } 9).user
        = some { id := "user_9", email := "new@user.org", name := jsTrim " Jo " } :=
  C2_register "new@user.org" "secret7" " Jo " (some "+1 (23) 4-5") 9
    (by decide) (by decide) (by decide) (by decide)
    (Or.inr ⟨"+1 (23) 4-5", rfl, by decide⟩)

/-- `extractToken` yields `none` whenever the header does not start with
`Bearer `. -/
theorem extractToken_eq_none_of_not_bearer {s : String}
    (hs : strStartsWith s "Bearer " = false) :
    AuthApi.extractToken (some s) = none := by
  unfold AuthApi.extractToken
  by_cases hf : jsFalsy (some s) = true
  · simp [hf]
  · simp only [Bool.not_eq_true] at hf
    simp [hf, hs]

/-- Claim C8: a `GET /api/auth/me` request whose `Authorization` header is
absent or does not begin with `Bearer ` receives 401 with the body
`error = "Authorization token is required"`. -/
theorem C8_me_unauthorized (authHeader : Option String)
    (h : authHeader = none
      ∨ ∃ s, authHeader = some s ∧ strStartsWith s "Bearer " = false) :
    (AuthApi.meGET authHeader).status = 401
    ∧ (AuthApi.meGET authHeader).error = some "Authorization token is required" := by
  rcases h with h | ⟨s, hs, hb⟩
  · subst h; exact ⟨rfl, rfl⟩
  · subst hs
    have hnone := extractToken_eq_none_of_not_bearer hb
    unfold AuthApi.meGET
    rw [hnone]
    exact ⟨rfl, rfl⟩

/-- Claim C8, witness: the header-less request receives the 401 response. -/
theorem C8_me_unauthorized_witness :
    (AuthApi.meGET none).status = 401
    ∧ (AuthApi.meGET none).error = some "Authorization token is required" :=
  C8_me_unauthorized none (Or.inl rfl)

/-! ## Claims about comment posting and the posts store -/

/-- Claim C6: posting a comment on an existing post increments that post's
comment count by exactly one and appends a comment record attributed to the
mock current user. First conjunct: the mock database's `createComment`
appends the comment and bumps the post's `comments_count` by 1. Second
conjunct: the demo store's `addComment(postId, text)` appends to the post's
comment list (its count is the list length) a comment whose `username` is
the current mock user's. -/
theorem C6_add_comment :
    (∀ (s : MockDb.Store) (d : MockDb.CommentInput) (now : Nat) (p : MockDb.Post),
      s.posts.find? (fun q => q.id == d.post_id) = some p →
      ((MockDb.createComment s d now).1.posts.find? fun q => q.id == d.post_id)
          = some { p with comments_count := p.comments_count + 1 }
        ∧ (MockDb.createComment s d now).1.comments
            = s.comments ++ [(MockDb.createComment s d now).2]
        ∧ (MockDb.createComment s d now).2.user_id = d.user_id
        ∧ (MockDb.createComment s d now).2.text = d.text)
  ∧ (∀ (s : DemoStore.DStore) (postId : Int) (text : String) (p : DemoStore.DPost),
      s.posts.find? (fun q => q.id == postId) = some p →
      ∃ c, (DemoStore.addComment s postId text).2 = some c
        ∧ c.username = s.currentUser.username
        ∧ c.text = text
        ∧ ((DemoStore.addComment s postId text).1.posts.find? fun q => q.id == postId)
            = some { p with comments := p.comments ++ [c] }
        ∧ ({ p with comments := p.comments ++ [c] } : DemoStore.DPost).comments.length
            = p.comments.length + 1) := by
  constructor
  · intro s d now p hp
    refine ⟨?_, rfl, rfl, rfl⟩
    exact (find?_updateFirst (fun q => q.id == d.post_id)
        (fun q => { q with comments_count := q.comments_count + 1 })
        (fun a => rfl) s.posts).trans (by rw [hp])
  · intro s postId text p hp
    unfold DemoStore.addComment
    rw [hp]
    refine ⟨_, rfl, rfl, rfl, ?_, by simp⟩
    exact (find?_updateFirst (fun q => q.id == postId)
        (fun q => { q with comments := q.comments ++
            [{ id := DemoStore.maxWithZero (p.comments.map fun x => x.id) + 1,
               username := s.currentUser.username, avatar := s.currentUser.avatar,
               text := text, timeAgo := "now" }] })
        (fun a => rfl) s.posts).trans (by rw [hp])

/-- Claim C6, witness: both comment-posting functions evaluated on concrete
one-post stores. -/
theorem C6_add_comment_witness :
    (((MockDb.createComment Fixtures.dbStore
          { post_id := "1", user_id := "1", text := "nice" } 7).1.posts.find?
        fun q => q.id == "1")
      = some { Fixtures.dbPost with comments_count := Fixtures.dbPost.comments_count + 1 })
    ∧ (∃ c, (DemoStore.addComment Fixtures.demoStore 1 "nice").2 = some c
        ∧ c.username = Fixtures.demoStore.currentUser.username
        ∧ c.text = "nice"
        ∧ ((DemoStore.addComment Fixtures.demoStore 1 "nice").1.posts.find?
              fun q => q.id == 1)
            = some { Fixtures.demoPost with
                       comments := Fixtures.demoPost.comments ++ [c] }
        ∧ ({ Fixtures.demoPost with
               comments := Fixtures.demoPost.comments ++ [c] } : DemoStore.DPost).comments.length
            = Fixtures.demoPost.comments.length + 1) :=
  ⟨(C6_add_comment.1 Fixtures.dbStore { post_id := "1", user_id := "1", text := "nice" }
      7 Fixtures.dbPost (by decide)).1,
   C6_add_comment.2 Fixtures.demoStore 1 "nice" Fixtures.demoPost (by decide)⟩

/-- Claim C10: the success branch of the posts store's `deleteComment` sets
the matching post's `commentsCount` — in the `posts` list and in
`currentPost` — to `max 0 (commentsCount - 1)`, leaves non-matching posts
untouched, and therefore never drives a count below zero (a count of 0 stays
0). -/
theorem C10_delete_comment (st : PostsStore.CState) (postId commentId : String) :
    ((PostsStore.deleteCommentSuccess st postId commentId).posts.length = st.posts.length)
    ∧ (∀ q ∈ (PostsStore.deleteCommentSuccess st postId commentId).posts,
        ∃ p ∈ st.posts,
          (p.id = postId →
            q = { p with commentsCount := max 0 (p.commentsCount - 1) }
            ∧ 0 ≤ q.commentsCount
            ∧ (p.commentsCount = 0 → q.commentsCount = 0))
          ∧ (p.id ≠ postId → q = p))
    ∧ (∀ cp, st.currentPost = some cp →
        (cp.id = postId →
          (PostsStore.deleteCommentSuccess st postId commentId).currentPost
            = some { cp with commentsCount := max 0 (cp.commentsCount - 1) })
        ∧ (cp.id ≠ postId →
          (PostsStore.deleteCommentSuccess st postId commentId).currentPost = some cp)) := by
  refine ⟨List.length_map _ _, ?_, ?_⟩
  · intro q hq
    obtain ⟨p, hpmem, rfl⟩ := List.mem_map.mp hq
    refine ⟨p, hpmem, ?_, ?_⟩
    · intro hid
      have hb : (p.id == postId) = true := by simp [hid]
      refine ⟨by simp [hb], ?_, fun h0 => ?_⟩
      · simp only [hb, if_true]
        exact le_max_left _ _
      · simp [hb, h0]
    · intro hid
      have hb : (p.id == postId) = false := by simp [hid]
      simp [hb]
  · intro cp hcp
    unfold PostsStore.deleteCommentSuccess
    rw [hcp]
    constructor
    · intro hid
      have hb : (cp.id == postId) = true := by simp [hid]
      simp [hb]
    · intro hid
      have hb : (cp.id == postId) = false := by simp [hid]
      simp [hb]

/-- Claim C10, witness: deleting a comment on a post whose count is already
zero leaves the count at zero, in the list and in `currentPost`. -/
theorem C10_delete_comment_witness :
    (PostsStore.deleteCommentSuccess Fixtures.cState "p1" "c1").posts.length
        = Fixtures.cState.posts.length
    ∧ ((PostsStore.deleteCommentSuccess Fixtures.cState "p1" "c1").currentPost
        = some { Fixtures.cPost with
                   commentsCount := max 0 (Fixtures.cPost.commentsCount - 1) }) :=
  ⟨(C10_delete_comment Fixtures.cState "p1" "c1").1,
   ((C10_delete_comment Fixtures.cState "p1" "c1").2.2 Fixtures.cPost rfl).1 rfl⟩

/-! ## Claims about the like/save toggles -/

theorem countP_filter_le (p q : α → Bool) (l : List α) :
    (l.filter q).countP p ≤ l.countP p := by
  induction l with
  | nil => simp
  | cons x xs ih =>
    by_cases hq : q x = true
    · simp only [List.filter_cons, hq, if_true, List.countP_cons]
      exact Nat.add_le_add ih (Nat.le_refl _)
    · simp only [Bool.not_eq_true] at hq
      simp only [List.filter_cons, hq, List.countP_cons, Bool.false_eq_true, if_false]
      exact Nat.le_trans ih (Nat.le_add_right _ _)

theorem countP_ge_two {p : α → Bool} {l : List α} {a b : α} (ha : a ∈ l) (hb : b ∈ l)
    (hab : a ≠ b) (hpa : p a = true) (hpb : p b = true) : 2 ≤ l.countP p := by
  have ha2 : a ∈ l.filter p := List.mem_filter.mpr ⟨ha, hpa⟩
  have hb2 : b ∈ l.filter p := List.mem_filter.mpr ⟨hb, hpb⟩
  rw [List.countP_eq_length_filter]
  cases hfl : l.filter p with
  | nil => rw [hfl] at ha2; simp at ha2
  | cons x t =>
    cases t with
    | nil =>
      rw [hfl] at ha2 hb2
      simp only [List.mem_singleton] at ha2 hb2
      exact absurd (ha2.trans hb2.symm) hab
    | cons y u =>
      simp only [List.length_cons]
      omega

theorem any_eq_false_of_forall {p : α → Bool} {l : List α}
    (h : ∀ x ∈ l, p x = false) : l.any p = false := by
  induction l with
  | nil => rfl
  | cons x xs ih =>
    simp [List.any_cons, h x (List.mem_cons_self x xs),
          ih fun y hy => h y (List.mem_cons_of_mem x hy)]

theorem find?_append_none {p : α → Bool} {l1 : List α} (h : l1.find? p = none)
    (l2 : List α) : (l1 ++ l2).find? p = l2.find? p := by
  induction l1 with
  | nil => rfl
  | cons x xs ih =>
    by_cases hx : p x = true
    · rw [List.find?_cons_of_pos _ hx] at h; simp at h
    · rw [List.find?_cons_of_neg _ hx] at h
      rw [List.cons_append, List.find?_cons_of_neg _ hx]
      exact ih h

/-- Decrementing and then incrementing a post's `likes_count` restores the
post list. -/
theorem updateFirst_dec_inc (postId : String) (l : List MockDb.Post) :
    updateFirst (fun p => p.id == postId)
        (fun p => { p with likes_count := p.likes_count + 1 })
        (updateFirst (fun p => p.id == postId)
          (fun p => { p with likes_count := p.likes_count - 1 }) l) = l := by
  induction l with
  | nil => rfl
  | cons x xs ih =>
    by_cases hx : (x.id == postId) = true
    · simp [updateFirst, hx, Int.sub_add_cancel]
    · simp only [Bool.not_eq_true] at hx
      simp [updateFirst, hx, ih]

/-- Incrementing and then decrementing a post's `likes_count` restores the
post list. -/
theorem updateFirst_inc_dec (postId : String) (l : List MockDb.Post) :
    updateFirst (fun p => p.id == postId)
        (fun p => { p with likes_count := p.likes_count - 1 })
        (updateFirst (fun p => p.id == postId)
          (fun p => { p with likes_count := p.likes_count + 1 }) l) = l := by
  induction l with
  | nil => rfl
  | cons x xs ih =>
    by_cases hx : (x.id == postId) = true
    · simp [updateFirst, hx, Int.add_sub_cancel]
    · simp only [Bool.not_eq_true] at hx
      simp [updateFirst, hx, ih]

/-- One toggle step when no like record exists for the pair: a fresh record
is appended and the post's counter incremented. -/
theorem toggleLike_none {s : MockDb.Store} {postId userId : String} {n : Nat}
    (hfind : s.likes.find? (fun l => l.post_id == postId && l.user_id == userId) = none) :
    (MockDb.toggleLike s postId userId n).1.likes
        = s.likes ++ [{ id := toString (s.likes.length + 1), post_id := postId,
                        user_id := userId, created_at := n }]
    ∧ (MockDb.toggleLike s postId userId n).1.posts
        = updateFirst (fun p => p.id == postId)
            (fun p => { p with likes_count := p.likes_count + 1 }) s.posts := by
  unfold MockDb.toggleLike
  rw [hfind]
  exact ⟨rfl, rfl⟩

/-- One toggle step when a like record exists for the pair: all records with
its id are removed and the post's counter decremented. -/
theorem toggleLike_some {s : MockDb.Store} {postId userId : String} {n : Nat}
    {ex : MockDb.Like}
    (hfind : s.likes.find? (fun l => l.post_id == postId && l.user_id == userId) = some ex) :
    (MockDb.toggleLike s postId userId n).1.likes
        = s.likes.filter (fun l => !(l.id == ex.id))
    ∧ (MockDb.toggleLike s postId userId n).1.posts
        = updateFirst (fun p => p.id == postId)
            (fun p => { p with likes_count := p.likes_count - 1 }) s.posts := by
  unfold MockDb.toggleLike
  rw [hfind]
  exact ⟨rfl, rfl⟩

/-- Claim C3: toggling the like of a `(postId, userId)` pair twice in
succession restores the post list — in particular every post's `likes_count`
— and the pair's liked state, provided the store holds at most one like
record for the pair (the invariant of claim C9, maintained from the seeded
state). -/
theorem C3_toggle_like_twice (s : MockDb.Store) (postId userId : String) (n1 n2 : Nat)
    (h : MockDb.likePairCount s.likes postId userId ≤ 1) :
    ((MockDb.toggleLike (MockDb.toggleLike s postId userId n1).1 postId userId n2).1.posts
        = s.posts)
    ∧ (MockDb.hasLike
          (MockDb.toggleLike (MockDb.toggleLike s postId userId n1).1 postId userId n2).1
          postId userId
        = MockDb.hasLike s postId userId) := by
  unfold MockDb.likePairCount at h
  cases hfind : s.likes.find? (fun l => l.post_id == postId && l.user_id == userId) with
  | some ex =>
    obtain ⟨h1likes, h1posts⟩ := toggleLike_some (n := n1) hfind
    have hexmem : ex ∈ s.likes := List.mem_of_find?_eq_some hfind
    have hexpred : (ex.post_id == postId && ex.user_id == userId) = true := by
      have := List.find?_some hfind
      simpa using this
    have h2find : (MockDb.toggleLike s postId userId n1).1.likes.find?
        (fun l => l.post_id == postId && l.user_id == userId) = none := by
      rw [h1likes]
      apply List.find?_eq_none.mpr
      intro x hx hpx
      rcases List.mem_filter.mp hx with ⟨hxmem, hxid⟩
      have hxne : x ≠ ex := by
        intro hxe
        rw [hxe] at hxid
        simp at hxid
      have h2 : 2 ≤ s.likes.countP fun l => l.post_id == postId && l.user_id == userId :=
        countP_ge_two hxmem hexmem hxne hpx hexpred
      omega
    obtain ⟨h2likes, h2posts⟩ := toggleLike_none (n := n2) h2find
    constructor
    · rw [h2posts, h1posts, updateFirst_dec_inc]
    · have hleft : MockDb.hasLike s postId userId = true :=
        List.any_eq_true.mpr ⟨ex, hexmem, hexpred⟩
      have hright : MockDb.hasLike
          (MockDb.toggleLike (MockDb.toggleLike s postId userId n1).1 postId userId n2).1
          postId userId = true := by
        unfold MockDb.hasLike
        rw [h2likes]
        apply List.any_eq_true.mpr
        refine ⟨_, List.mem_append_right _ (List.mem_singleton_self _), ?_⟩
        simp
      rw [hleft, hright]
  | none =>
    obtain ⟨h1likes, h1posts⟩ := toggleLike_none (n := n1) hfind
    have h2find : (MockDb.toggleLike s postId userId n1).1.likes.find?
        (fun l => l.post_id == postId && l.user_id == userId)
        = some { id := toString (s.likes.length + 1), post_id := postId,
                 user_id := userId, created_at := n1 } := by
      rw [h1likes, find?_append_none hfind]
      exact List.find?_cons_of_pos _ (by simp)
    obtain ⟨h2likes, h2posts⟩ := toggleLike_some (n := n2) h2find
    constructor
    · rw [h2posts, h1posts, updateFirst_inc_dec]
    · have hforall := List.find?_eq_none.mp hfind
      have hleft : MockDb.hasLike s postId userId = false := by
        apply any_eq_false_of_forall
        intro x hx
        have := hforall x hx
        simpa using this
      have hright : MockDb.hasLike
          (MockDb.toggleLike (MockDb.toggleLike s postId userId n1).1 postId userId n2).1
          postId userId = false := by
        unfold MockDb.hasLike
        rw [h2likes, h1likes]
        apply any_eq_false_of_forall
        intro x hx
        rcases List.mem_filter.mp hx with ⟨hxmem, hxid⟩
        rcases List.mem_append.mp hxmem with hxold | hxnew
        · have := hforall x hxold
          simpa using this
        · rw [List.mem_singleton] at hxnew
          rw [hxnew] at hxid
          simp at hxid
      rw [hleft, hright]

/-- Claim C3, witness: the double toggle evaluated on the concrete one-post
store (initially unliked). -/
theorem C3_toggle_like_twice_witness :
    ((MockDb.toggleLike (MockDb.toggleLike Fixtures.dbStore "1" "1" 0).1 "1" "1" 0).1.posts
        = Fixtures.dbStore.posts)
    ∧ (MockDb.hasLike
          (MockDb.toggleLike (MockDb.toggleLike Fixtures.dbStore "1" "1" 0).1 "1" "1" 0).1
          "1" "1"
        = MockDb.hasLike Fixtures.dbStore "1" "1") :=
  C3_toggle_like_twice Fixtures.dbStore "1" "1" 0 0 (by decide)

/-- One save-toggle step when no record exists for the pair. -/
theorem toggleSavedPost_none {s : MockDb.Store} {postId userId : String} {n : Nat}
    (hfind : s.savedPosts.find? (fun v => v.post_id == postId && v.user_id == userId) = none) :
    (MockDb.toggleSavedPost s postId userId n).1.savedPosts
        = s.savedPosts ++ [{ id := toString (s.savedPosts.length + 1), post_id := postId,
                             user_id := userId, created_at := n }]
    ∧ (MockDb.toggleSavedPost s postId userId n).1.likes = s.likes := by
  unfold MockDb.toggleSavedPost
  rw [hfind]
  exact ⟨rfl, rfl⟩

/-- One save-toggle step when a record exists for the pair. -/
theorem toggleSavedPost_some {s : MockDb.Store} {postId userId : String} {n : Nat}
    {ex : MockDb.SavedPost}
    (hfind : s.savedPosts.find? (fun v => v.post_id == postId && v.user_id == userId) = some ex) :
    (MockDb.toggleSavedPost s postId userId n).1.savedPosts
        = s.savedPosts.filter (fun v => !(v.id == ex.id))
    ∧ (MockDb.toggleSavedPost s postId userId n).1.likes = s.likes := by
  unfold MockDb.toggleSavedPost
  rw [hfind]
  exact ⟨rfl, rfl⟩

/-- `toggleLike` keeps at most one like record per pair and does not touch
the saved-post records. -/
theorem toggleLike_preserves (s : MockDb.Store) (postId userId : String) (n : Nat)
    (hL : MockDb.likeUnique s) :
    MockDb.likeUnique (MockDb.toggleLike s postId userId n).1
    ∧ (MockDb.toggleLike s postId userId n).1.savedPosts = s.savedPosts := by
  cases hfind : s.likes.find? (fun l => l.post_id == postId && l.user_id == userId) with
  | some ex =>
    have hsaves : (MockDb.toggleLike s postId userId n).1.savedPosts = s.savedPosts := by
      unfold MockDb.toggleLike
      rw [hfind]
    refine ⟨?_, hsaves⟩
    intro p u
    unfold MockDb.likePairCount
    rw [(toggleLike_some (n := n) hfind).1]
    have := hL p u
    unfold MockDb.likePairCount at this
    exact Nat.le_trans (countP_filter_le _ _ _) this
  | none =>
    have hsaves : (MockDb.toggleLike s postId userId n).1.savedPosts = s.savedPosts := by
      unfold MockDb.toggleLike
      rw [hfind]
    refine ⟨?_, hsaves⟩
    intro p u
    unfold MockDb.likePairCount
    rw [(toggleLike_none (n := n) hfind).1, List.countP_append]
    by_cases hpr : (postId == p && userId == u) = true
    · obtain ⟨hp1e, hp2e⟩ : postId = p ∧ userId = u := by simpa using hpr
      subst hp1e
      subst hp2e
      have h0 : s.likes.countP (fun l => l.post_id == postId && l.user_id == userId) = 0 := by
        apply List.countP_eq_zero.mpr
        intro a ha
        exact List.find?_eq_none.mp hfind a ha
      rw [h0]
      simp [List.countP_cons]
    · simp only [Bool.not_eq_true] at hpr
      have h1 : List.countP (fun l : MockDb.Like => l.post_id == p && l.user_id == u)
          [{ id := toString (s.likes.length + 1), post_id := postId,
             user_id := userId, created_at := n }] = 0 := by
        simp [List.countP_cons, hpr]
      rw [h1]
      have := hL p u
      unfold MockDb.likePairCount at this
      omega

/-- `toggleSavedPost` keeps at most one saved-post record per pair and does
not touch the like records. -/
theorem toggleSavedPost_preserves (s : MockDb.Store) (postId userId : String) (n : Nat)
    (hS : MockDb.saveUnique s) :
    MockDb.saveUnique (MockDb.toggleSavedPost s postId userId n).1
    ∧ (MockDb.toggleSavedPost s postId userId n).1.likes = s.likes := by
  cases hfind : s.savedPosts.find? (fun v => v.post_id == postId && v.user_id == userId) with
  | some ex =>
    refine ⟨?_, (toggleSavedPost_some (n := n) hfind).2⟩
    intro p u
    unfold MockDb.savePairCount
    rw [(toggleSavedPost_some (n := n) hfind).1]
    have := hS p u
    unfold MockDb.savePairCount at this
    exact Nat.le_trans (countP_filter_le _ _ _) this
  | none =>
    refine ⟨?_, (toggleSavedPost_none (n := n) hfind).2⟩
    intro p u
    unfold MockDb.savePairCount
    rw [(toggleSavedPost_none (n := n) hfind).1, List.countP_append]
    by_cases hpr : (postId == p && userId == u) = true
    · obtain ⟨hp1e, hp2e⟩ : postId = p ∧ userId = u := by simpa using hpr
      subst hp1e
      subst hp2e
      have h0 : s.savedPosts.countP (fun v => v.post_id == postId && v.user_id == userId) = 0 := by
        apply List.countP_eq_zero.mpr
        intro a ha
        exact List.find?_eq_none.mp hfind a ha
      rw [h0]
      simp [List.countP_cons]
    · simp only [Bool.not_eq_true] at hpr
      have h1 : List.countP (fun v : MockDb.SavedPost => v.post_id == p && v.user_id == u)
          [{ id := toString (s.savedPosts.length + 1), post_id := postId,
             user_id := userId, created_at := n }] = 0 := by
        simp [List.countP_cons, hpr]
      rw [h1]
      have := hS p u
      unfold MockDb.savePairCount at this
      omega

/-- One toggle operation preserves both uniqueness invariants. -/
theorem applyOp_preserves (s : MockDb.Store) (op : MockDb.Op)
    (h : MockDb.likeUnique s ∧ MockDb.saveUnique s) :
    MockDb.likeUnique (MockDb.applyOp s op) ∧ MockDb.saveUnique (MockDb.applyOp s op) := by
  cases op with
  | like postId userId now =>
    obtain ⟨hL, hsaves⟩ := toggleLike_preserves s postId userId now h.1
    refine ⟨hL, ?_⟩
    intro p u
    show MockDb.savePairCount (MockDb.toggleLike s postId userId now).1.savedPosts p u ≤ 1
    rw [hsaves]
    exact h.2 p u
  | save postId userId now =>
    obtain ⟨hS, hlikes⟩ := toggleSavedPost_preserves s postId userId now h.2
    refine ⟨?_, hS⟩
    intro p u
    show MockDb.likePairCount (MockDb.toggleSavedPost s postId userId now).1.likes p u ≤ 1
    rw [hlikes]
    exact h.1 p u

/-- Any toggle sequence preserves both uniqueness invariants. -/
theorem runOps_preserves (ops : List MockDb.Op) : ∀ s : MockDb.Store,
    MockDb.likeUnique s ∧ MockDb.saveUnique s →
    MockDb.likeUnique (MockDb.runOps s ops) ∧ MockDb.saveUnique (MockDb.runOps s ops) := by
  induction ops with
  | nil => intro s h; exact h
  | cons op ops ih => intro s h; exact ih _ (applyOp_preserves s op h)

/-- Claim C9: in every store reachable from the seeded initial state by any
sequence of `toggleLike` / `toggleSavedPost` operations, there is at most
one `Like` record and at most one `SavedPost` record per
`(postId, userId)` pair. -/
theorem C9_pair_uniqueness (now : Nat) (ops : List MockDb.Op) :
    MockDb.likeUnique (MockDb.runOps (MockDb.initialStore now) ops)
    ∧ MockDb.saveUnique (MockDb.runOps (MockDb.initialStore now) ops) := by
  apply runOps_preserves
  constructor
  · intro p u
    show MockDb.likePairCount [] p u ≤ 1
    simp [MockDb.likePairCount]
  · intro p u
    show MockDb.savePairCount [] p u ≤ 1
    simp [MockDb.savePairCount]

/-! ## Claims about the feed, round trip and search -/

/-- Claim C4: `createPost` followed by `getPostById` on the newly assigned id
returns a post whose caption and location equal the input exactly and whose
`likes_count`, `comments_count` and `views_count` are all zero. (The mock
store's `Post` record carries no `tags` field at all — neither the input nor
the result has one, so the claim's "tags equal the input" clause is vacuous.)
The hypotheses say the fresh id collides with no existing post or comment and
the author exists, all true of every state the mock store actually reaches. -/
theorem C4_create_get_roundtrip (s : MockDb.Store) (d : MockDb.PostInput) (now : Nat)
    (hfresh : ∀ p ∈ s.posts, p.id ≠ toString (s.posts.length + 1))
    (hauthor : (MockDb.getUserById s d.user_id).isSome)
    (hnoc : ∀ c ∈ s.comments, c.post_id ≠ toString (s.posts.length + 1)) :
    ∃ x : MockDb.PostWithDetails,
      MockDb.getPostById (MockDb.createPost s d now).1 (MockDb.createPost s d now).2.id
          = some x
      ∧ x.post.caption = d.caption
      ∧ x.post.location = d.location
      ∧ x.post.likes_count = 0
      ∧ x.post.comments_count = 0
      ∧ x.post.views_count = 0 := by
  obtain ⟨u0, hu0⟩ := Option.isSome_iff_exists.mp hauthor
  have hnone1 : s.posts.find?
      (fun p => p.id == (MockDb.createPost s d now).2.id && !p.is_deleted) = none := by
    apply List.find?_eq_none.mpr
    intro p hp hpp
    have hid : p.id = toString (s.posts.length + 1) := by
      have := (Bool.and_eq_true _ _).mp hpp |>.1
      simpa using this
    exact hfresh p hp hid
  have hfindp : (MockDb.createPost s d now).1.posts.find?
      (fun p => p.id == (MockDb.createPost s d now).2.id && !p.is_deleted)
      = some (MockDb.createPost s d now).2 := by
    show (s.posts ++ [(MockDb.createPost s d now).2]).find? _ = _
    rw [find?_append_none hnone1]
    exact List.find?_cons_of_pos _ (by simp [MockDb.createPost])
  have husers : MockDb.getUserById (MockDb.createPost s d now).1
      (MockDb.createPost s d now).2.user_id
      = some { u0 with post_count := u0.post_count + 1 } := by
    show List.find? (fun u => u.id == d.user_id)
        (updateFirst (fun u => u.id == d.user_id)
          (fun u => { u with post_count := u.post_count + 1 }) s.users) = _
    rw [find?_updateFirst (fun u : MockDb.User => u.id == d.user_id)
          (fun u : MockDb.User => { u with post_count := u.post_count + 1 })
          (fun a => rfl)]
    unfold MockDb.getUserById at hu0
    rw [hu0, Option.map_some']
  have hcom : (MockDb.createPost s d now).1.comments.filter
      (fun c => c.post_id == (MockDb.createPost s d now).2.id && !c.is_deleted) = [] := by
    show s.comments.filter _ = []
    apply List.filter_eq_nil_iff.mpr
    intro c hc hcc
    have hid : c.post_id = toString (s.posts.length + 1) := by
      have := (Bool.and_eq_true _ _).mp hcc |>.1
      simpa using this
    exact hnoc c hc hid
  have hmain : MockDb.getPostById (MockDb.createPost s d now).1
      (MockDb.createPost s d now).2.id
      = some { post := (MockDb.createPost s d now).2,
               user := MockDb.userInfo { u0 with post_count := u0.post_count + 1 },
               is_liked_by_current_user :=
                 MockDb.likedByCurrentUser (MockDb.createPost s d now).1
                   (MockDb.createPost s d now).2.id,
               is_saved_by_current_user :=
                 MockDb.savedByCurrentUser (MockDb.createPost s d now).1
                   (MockDb.createPost s d now).2.id,
               recent_comments := [] } := by
    unfold MockDb.getPostById
    rw [hfindp]
    simp only []
    rw [husers]
    simp only []
    rw [hcom]
    rfl
  exact ⟨_, hmain, rfl, rfl, rfl, rfl, rfl⟩

/-- Claim C4, witness: the round trip evaluated on the concrete one-post
store. -/
theorem C4_create_get_roundtrip_witness :
    ∃ x : MockDb.PostWithDetails,
      MockDb.getPostById
          (MockDb.createPost Fixtures.dbStore
            { user_id := "1", image_url := "/j.svg", caption := "new cap",
              location := "Douala", is_panoramic := false } 3).1
          (MockDb.createPost Fixtures.dbStore
            { user_id := "1", image_url := "/j.svg", caption := "new cap",
              location := "Douala", is_panoramic := false } 3).2.id
          = some x
      ∧ x.post.caption = "new cap"
      ∧ x.post.location = "Douala"
      ∧ x.post.likes_count = 0
      ∧ x.post.comments_count = 0
      ∧ x.post.views_count = 0 :=
  C4_create_get_roundtrip Fixtures.dbStore
    { user_id := "1", image_url := "/j.svg", caption := "new cap",
      location := "Douala", is_panoramic := false } 3
    (by decide) (by decide) (by decide)

/-- `enrichSearchPost` keeps the underlying post. -/
theorem enrichSearchPost_post {s : MockDb.Store} {a : MockDb.Post}
    {b : MockDb.PostWithDetails} (hab : MockDb.enrichSearchPost s a = some b) :
    b.post = a := by
  unfold MockDb.enrichSearchPost at hab
  cases hu : MockDb.getUserById s a.user_id with
  | none => rw [hu] at hab; simp at hab
  | some u =>
    rw [hu] at hab
    simp only [Option.map_some', Option.some.injEq] at hab
    rw [← hab]

/-- Claim C5: on a store without soft-deleted posts (no reachable mock-store
state ever holds one, as nothing sets `is_deleted`), a successful
`searchPosts(q)` returns exactly the posts whose caption or location
contains `q` case-insensitively: the underlying posts of the result are the
filter of the post table by that predicate, and in particular every returned
post satisfies it. -/
theorem C5_search_posts (s : MockDb.Store) (q : String) (r : List MockDb.PostWithDetails)
    (hnd : ∀ p ∈ s.posts, p.is_deleted = false)
    (hr : MockDb.searchPosts s q = some r) :
    r.map (fun x => x.post)
        = s.posts.filter (fun p => containsCI p.caption q || containsCI p.location q)
    ∧ ∀ x ∈ r, (containsCI x.post.caption q || containsCI x.post.location q) = true := by
  unfold MockDb.searchPosts at hr
  constructor
  · have h1 := mapMO_map_back _ _ (fun a b hab => enrichSearchPost_post hab) hr
    rw [h1]
    apply List.filter_congr
    intro p hp
    rw [hnd p hp]
    simp
  · intro x hx
    rcases mapMO_mem _ hr x hx with ⟨a, ha, hfa⟩
    rcases List.mem_filter.mp ha with ⟨hamem, hapred⟩
    rw [enrichSearchPost_post hfa]
    exact (Bool.and_eq_true _ _).mp hapred |>.2

/-- Claim C5, witness: searching `cameroon` on the concrete one-post store
returns exactly its post (caption `Hello Cameroon`). -/
theorem C5_search_posts_witness :
    [Fixtures.dbHit].map (fun x => x.post)
        = Fixtures.dbStore.posts.filter
            (fun p => containsCI p.caption "cameroon" || containsCI p.location "cameroon")
    ∧ ∀ x ∈ [Fixtures.dbHit],
        (containsCI x.post.caption "cameroon" || containsCI x.post.location "cameroon") = true :=
  C5_search_posts Fixtures.dbStore "cameroon" [Fixtures.dbHit] (by decide) (by decide)

/-- What a successful feed enrichment says about its result: the underlying
post is kept, the author join succeeded, the flags are the current user's
like/save membership, and the comments are the enrichment of the first three
non-deleted comments of the post. -/
theorem enrichFeedPost_spec {s : MockDb.Store} {a : MockDb.Post}
    {b : MockDb.PostWithDetails} (hab : MockDb.enrichFeedPost s a = some b) :
    b.post = a
    ∧ (MockDb.getUserById s a.user_id).map MockDb.userInfo = some b.user
    ∧ b.is_liked_by_current_user = MockDb.likedByCurrentUser s a.id
    ∧ b.is_saved_by_current_user = MockDb.savedByCurrentUser s a.id
    ∧ mapMO (MockDb.enrichComment s)
        ((s.comments.filter fun c => c.post_id == a.id && !c.is_deleted).take 3)
        = some b.recent_comments := by
  unfold MockDb.enrichFeedPost at hab
  cases hu : MockDb.getUserById s a.user_id with
  | none => rw [hu] at hab; simp at hab
  | some u =>
    rw [hu] at hab
    cases hm : mapMO (MockDb.enrichComment s)
        ((s.comments.filter fun c => c.post_id == a.id && !c.is_deleted).take 3) with
    | none => rw [hm] at hab; simp at hab
    | some rc =>
      rw [hm] at hab
      simp only [Option.map_some', Option.some.injEq] at hab
      rw [← hab]
      exact ⟨rfl, rfl, rfl, rfl, rfl⟩

/-- The feed's sort is ordered by descending creation time. -/
theorem sortPostsDesc_sorted (l : List MockDb.Post) :
    List.Pairwise MockDb.moreRecent (MockDb.sortPostsDesc l) :=
  List.sorted_insertionSort MockDb.moreRecent l

/-- Claim C7: a successful `getPosts(limit, offset)` returns the
`[offset, offset + limit)` slice of the non-deleted posts sorted
most-recent-first; the returned list is itself ordered most-recent-first,
and each element is the enrichment of its post: author info joined, the
current user's like/save flags, and at most three recent comments, each
joined with its commenter. -/
theorem C7_get_posts (s : MockDb.Store) (limit offset : Nat)
    (r : List MockDb.PostWithDetails)
    (hr : MockDb.getPosts s limit offset = some r) :
    r.map (fun x => x.post)
        = ((MockDb.sortPostsDesc (s.posts.filter fun p => !p.is_deleted)).drop offset).take limit
    ∧ List.Pairwise (fun x y => y.post.created_at ≤ x.post.created_at) r
    ∧ ∀ x ∈ r,
        x.post.is_deleted = false
        ∧ (MockDb.getUserById s x.post.user_id).map MockDb.userInfo = some x.user
        ∧ x.is_liked_by_current_user = MockDb.likedByCurrentUser s x.post.id
        ∧ x.is_saved_by_current_user = MockDb.savedByCurrentUser s x.post.id
        ∧ x.recent_comments.length ≤ 3
        ∧ mapMO (MockDb.enrichComment s)
            ((s.comments.filter fun c => c.post_id == x.post.id && !c.is_deleted).take 3)
            = some x.recent_comments := by
  unfold MockDb.getPosts at hr
  have hmap := mapMO_map_back _ (fun x : MockDb.PostWithDetails => x.post)
    (fun a b hab => (enrichFeedPost_spec hab).1) hr
  have hslice : (((MockDb.sortPostsDesc (s.posts.filter fun p => !p.is_deleted)).drop offset).take limit).Sublist
      (MockDb.sortPostsDesc (s.posts.filter fun p => !p.is_deleted)) :=
    List.Sublist.trans (List.take_sublist _ _) (List.drop_sublist _ _)
  refine ⟨hmap, ?_, ?_⟩
  · have hs : List.Pairwise MockDb.moreRecent
        (((MockDb.sortPostsDesc (s.posts.filter fun p => !p.is_deleted)).drop offset).take limit) :=
      (sortPostsDesc_sorted _).sublist hslice
    rw [← hmap] at hs
    exact List.pairwise_map.mp hs
  · intro x hx
    rcases mapMO_mem _ hr x hx with ⟨a, ha, hfa⟩
    obtain ⟨hpost, huser, hliked, hsaved, hcom⟩ := enrichFeedPost_spec hfa
    have hmem : a ∈ s.posts.filter fun p => !p.is_deleted := by
      have h1 : a ∈ MockDb.sortPostsDesc (s.posts.filter fun p => !p.is_deleted) :=
        hslice.subset ha
      exact (List.perm_insertionSort _ _).mem_iff.mp h1
    have hdel : a.is_deleted = false := by
      have := (List.mem_filter.mp hmem).2
      simpa using this
    rw [hpost]
    refine ⟨hdel, huser, hliked, hsaved, ?_, hcom⟩
    rw [mapMO_length _ hcom]
    exact List.length_take_le _ _

/-- Claim C7, witness: the feed query evaluated on the concrete one-post
store with `limit = 20`, `offset = 0`. -/
theorem C7_get_posts_witness :
    [Fixtures.dbHit].map (fun x => x.post)
        = ((MockDb.sortPostsDesc (Fixtures.dbStore.posts.filter fun p => !p.is_deleted)).drop 0).take 20
    ∧ List.Pairwise (fun x y => y.post.created_at ≤ x.post.created_at) [Fixtures.dbHit]
    ∧ ∀ x ∈ [Fixtures.dbHit],
        x.post.is_deleted = false
        ∧ (MockDb.getUserById Fixtures.dbStore x.post.user_id).map MockDb.userInfo = some x.user
        ∧ x.is_liked_by_current_user = MockDb.likedByCurrentUser Fixtures.dbStore x.post.id
        ∧ x.is_saved_by_current_user = MockDb.savedByCurrentUser Fixtures.dbStore x.post.id
        ∧ x.recent_comments.length ≤ 3
        ∧ mapMO (MockDb.enrichComment Fixtures.dbStore)
            ((Fixtures.dbStore.comments.filter fun c => c.post_id == x.post.id && !c.is_deleted).take 3)
            = some x.recent_comments :=
  C7_get_posts Fixtures.dbStore 20 0 [Fixtures.dbHit] (by decide)
